import Mathlib

/-!
Shallow embedding of the status-service ticket-status model and its REST /
event-feed handlers.

Sources embedded here:
* the mongoose model (`isValidTransition`, `updateStatus`, `addHistoryEntry`,
  `getStatusHistory`) — the full variant whose schema carries `isActive` and
  accepts the soft-terminal `deleted` status;
* the `POST /status/:ticketId/update` Express handler (duplicate check,
  record creation, error mapping, publish call);
* the `MessageQueue` event handlers `handleTicketCreated`,
  `handleTicketUpdated`, `handleTicketStatusChanged` and
  `publishStatusUpdated`.

Modelling conventions: timestamps are integer milliseconds; JavaScript
strings are `String`, with the empty string standing for an absent /
`undefined` optional string (both are falsy in the source's guards);
optional event fields are `Option String` with the source's `||` defaulting
made explicit; the mongoose `save()` schema validation (status must lie in
the enumeration or be `deleted`) is applied at the points where the source
saves a freshly-built document.
-/

/-- JavaScript `a.includes(b)` on strings: `b` occurs as a contiguous
substring of `a`. -/
def jsIncludes (a b : String) : Bool :=
  decide (b.toList <:+: a.toList)

/-- The `STATUS_TYPES` enumeration values: `Object.values(STATUS_TYPES)`. -/
def statusTypes : List String :=
  ["open", "in-progress", "resolved", "closed"]

/-- Statuses accepted by the schema validators: the enumeration plus the
soft-terminal marker, `[...Object.values(STATUS_TYPES), 'deleted']`. -/
def validStoredStatuses : List String :=
  statusTypes ++ ["deleted"]

/-- One element of a record's `history` array (`statusHistorySchema`). -/
structure HistoryEntry where
  status : String
  timestamp : Int
  updatedBy : String
  reason : String
  deriving Repr, DecidableEq

/-- A per-ticket status record (`ticketStatusSchema`). -/
structure TicketStatus where
  ticketId : String
  currentStatus : String
  history : List HistoryEntry
  lastUpdated : Int
  isActive : Bool
  deriving Repr, DecidableEq

/-- Normalization at the top of `updateStatus`: the spelling `in_progress`
is mapped to the canonical `in-progress`; every other string is unchanged. -/
def normalizeStatus (s : String) : String :=
  if s = "in_progress" then "in-progress" else s

/-- `ticketStatusSchema.methods.isValidTransition`: false for an inactive
record; always true for `deleted`; otherwise membership in the fixed
transition table (a lookup miss, e.g. from `deleted`, is falsy). -/
def isValidTransition (r : TicketStatus) (newStatus : String) : Bool :=
  if r.isActive = false then
    false
  else if newStatus = "deleted" then
    true
  else
    let targets : List String :=
      if r.currentStatus = "open" then ["in-progress", "closed"]
      else if r.currentStatus = "in-progress" then ["resolved", "closed"]
      else if r.currentStatus = "resolved" then ["closed", "in-progress"]
      else if r.currentStatus = "closed" then []
      else []
    decide (newStatus ∈ targets)

/-- Errors thrown by the model methods and by mongoose schema validation on
`save()`. -/
inductive UpdateError where
  | invalidStatusValue (raw : String)
  | invalidTransition (fromStatus toStatus : String)
  | schemaValidation (value : String)
  deriving Repr, DecidableEq

/-- The `message` carried by each thrown error. -/
def errorMessage : UpdateError → String
  | .invalidStatusValue raw =>
      "Invalid status value: " ++ raw ++ ". Valid values are: open, in-progress, resolved, closed"
  | .invalidTransition a b =>
      "Invalid status transition from " ++ a ++ " to " ++ b
  | .schemaValidation v =>
      v ++ " is not a valid status"

/-- `ticketStatusSchema.methods.updateStatus`: normalize, special-case
`deleted` (always allowed, deactivates the record), then validate the value
and the transition before appending to history and updating
`currentStatus` / `lastUpdated`. -/
def updateStatus (r : TicketStatus) (newStatus updatedBy reason : String)
    (now : Int) : Except UpdateError TicketStatus :=
  let normalizedStatus := normalizeStatus newStatus
  if normalizedStatus = "deleted" then
    .ok { r with
      isActive := false
      currentStatus := "deleted"
      history := r.history ++
        [{ status := "deleted", timestamp := now, updatedBy,
           reason := if reason = "" then "Ticket deleted" else reason }]
      lastUpdated := now }
  else if ¬ (normalizedStatus ∈ statusTypes) then
    .error (.invalidStatusValue newStatus)
  else if isValidTransition r normalizedStatus = false then
    .error (.invalidTransition r.currentStatus normalizedStatus)
  else
    .ok { r with
      history := r.history ++
        [{ status := normalizedStatus, timestamp := now, updatedBy,
           reason := if reason = "" then
               "Status changed from " ++ r.currentStatus ++ " to " ++ normalizedStatus
             else reason }]
      currentStatus := normalizedStatus
      lastUpdated := now }

/-- `ticketStatusSchema.methods.addHistoryEntry`: append an audit entry
carrying the unchanged `currentStatus`; touch `lastUpdated` only. -/
def addHistoryEntry (r : TicketStatus) (updatedBy reason : String)
    (now : Int) : TicketStatus :=
  { r with
    history := r.history ++
      [{ status := r.currentStatus, timestamp := now, updatedBy,
         reason := if reason = "" then "Ticket updated - no status change" else reason }]
    lastUpdated := now }

/-- Query filter for `getStatusHistory`; `none` models an absent (or, for
`limit`, unparsable) query parameter. -/
structure HistoryFilter where
  startDate : Option Int := none
  endDate : Option Int := none
  limit : Option Int := none
  deriving Repr, DecidableEq

/-- JavaScript `xs.slice(k)` for an integer `k`: drop the first `k`
elements, a negative `k` counting from the end (clamped at the start). -/
def jsSliceFrom (xs : List HistoryEntry) (k : Int) : List HistoryEntry :=
  if 0 ≤ k then xs.drop k.toNat
  else xs.drop (xs.length - k.natAbs)

/-- `ticketStatusSchema.statics.getStatusHistory`, applied to the record the
`ticketId` lookup found: filter by inclusive start / end bounds, then
`history.slice(-filter.limit)` when `filter.limit` is truthy (nonzero). -/
def getStatusHistory (r : TicketStatus) (f : HistoryFilter) : List HistoryEntry :=
  let h := r.history
  let h := match f.startDate with
    | some s => h.filter (fun e => decide (s ≤ e.timestamp))
    | none => h
  let h := match f.endDate with
    | some d => h.filter (fun e => decide (e.timestamp ≤ d))
    | none => h
  match f.limit with
  | some l => if l = 0 then h else jsSliceFrom h (-l)
  | none => h

/-- The duplicate check of the `POST /status/:ticketId/update` handler,
compared against the single most recent history entry: same status, within
5 seconds (absolute difference, in milliseconds), same actor, and reasons
equal or mutually containing (both nonempty for the containment branch).
With an empty history there is nothing to compare and the candidate is not
a duplicate. -/
def apiIsDuplicate (r : TicketStatus) (status updatedBy reason : String)
    (now : Int) : Bool :=
  match r.history.getLast? with
  | none => false
  | some lastEntry =>
      lastEntry.status = status &&
      (now - lastEntry.timestamp).natAbs < 5000 &&
      lastEntry.updatedBy = updatedBy &&
      (lastEntry.reason = reason ||
        (lastEntry.reason ≠ "" && reason ≠ "" &&
          (jsIncludes lastEntry.reason reason || jsIncludes reason lastEntry.reason)))

/-- The duplicate check of `MessageQueue.handleTicketUpdated`: as the API
one but with no `updatedBy` clause; `candStatus` is the already-defaulted
candidate status (`data.currentStatus || status.currentStatus`). -/
def eventIsDuplicate (r : TicketStatus) (candStatus reason : String)
    (now : Int) : Bool :=
  match r.history.getLast? with
  | none => false
  | some lastEntry =>
      lastEntry.status = candStatus &&
      (now - lastEntry.timestamp).natAbs < 5000 &&
      (lastEntry.reason = reason ||
        (lastEntry.reason ≠ "" && reason ≠ "" &&
          (jsIncludes lastEntry.reason reason || jsIncludes reason lastEntry.reason)))

/-- The payload published as `ticket.status.updated`. -/
structure OutboundMessage where
  ticketId : String
  status : String
  updatedBy : String
  reason : String
  timestamp : Int
  deriving Repr, DecidableEq

/-- `MessageQueue.publishStatusUpdated`: skip entirely when `preventLoop`;
otherwise publish onto the exchange. `channelOk = false` models the failure
path — the surrounding `try`/`catch` swallows the error and the method
returns `false` instead of throwing. The second component lists the
messages actually put on the feed by this call. -/
def publishStatusUpdated (channelOk : Bool)
    (ticketId status updatedBy reason : String) (preventLoop : Bool)
    (now : Int) : Bool × List OutboundMessage :=
  if preventLoop then
    (true, [])
  else if channelOk then
    (true, [{ ticketId, status, updatedBy, reason, timestamp := now }])
  else
    (false, [])

/-- HTTP responses of the update route, abstracted to their status class. -/
inductive ApiResponse where
  | ok
  | badRequest (msg : String)
  | serverError (msg : String)
  deriving Repr, DecidableEq

/-- The route's `catch` block: a message containing
`Invalid status transition` becomes a 400, anything else a 500. -/
def mapUpdateError (e : UpdateError) : ApiResponse :=
  if jsIncludes (errorMessage e) "Invalid status transition" then
    .badRequest (errorMessage e)
  else
    .serverError (errorMessage e)

/-- The `POST /status/:ticketId/update` Express handler, as a pure function
of the stored record for this ticket (`none` when the lookup misses).
Returns the store afterwards, the HTTP response, and the messages published
onto the feed. `channelOk` parameterizes whether the notifier publish
succeeds. -/
def apiUpdateHandler (store : Option TicketStatus)
    (ticketId status updatedBy reason : String)
    (fromMessageQueue headerFromService channelOk : Bool) (now : Int) :
    Option TicketStatus × ApiResponse × List OutboundMessage :=
  if status = "" ∨ updatedBy = "" then
    (store, .badRequest "Missing required fields", [])
  else
    let previousStatus := match store with
      | some r => r.currentStatus
      | none => "undefined"
    let afterMutation : Except UpdateError (Option TicketStatus) :=
      match store with
      | none =>
          if status ∈ validStoredStatuses then
            .ok (some
              { ticketId := ticketId
                currentStatus := status
                history := [{ status := status, timestamp := now, updatedBy := updatedBy,
                              reason := if reason = "" then "Initial status" else reason }]
                lastUpdated := now
                isActive := true })
          else
            .error (.schemaValidation status)
      | some r =>
          if apiIsDuplicate r status updatedBy reason now then
            .ok (some r)
          else if r.currentStatus = status then
            .ok (some (addHistoryEntry r updatedBy
              (if reason = "" then "Status update to " ++ status ++ " (no change)"
               else reason) now))
          else
            match updateStatus r status updatedBy reason now with
            | .ok r2 => .ok (some r2)
            | .error e => .error e
    match afterMutation with
    | .error e => (store, mapUpdateError e, [])
    | .ok store2 =>
        let preventLoop := fromMessageQueue || headerFromService
        let pub := publishStatusUpdated channelOk ticketId status updatedBy
          (if reason = "" then
             "Status changed from " ++ previousStatus ++ " to " ++ status
           else reason)
          preventLoop now
        (store2, .ok, pub.2)

/-- Payload of an inbound event (`data`); `none` models an absent field. -/
structure TicketEventData where
  id : String
  previousStatus : Option String := none
  currentStatus : Option String := none
  updatedBy : Option String := none
  reason : Option String := none
  createdBy : Option String := none
  deriving Repr, DecidableEq

/-- JavaScript `o || d` on an optional string: the default applies when the
field is absent or empty (both falsy). -/
def jsOr (o : Option String) (d : String) : String :=
  match o with
  | some s => if s = "" then d else s
  | none => d

/-- JavaScript truthiness of an optional string. -/
def jsTruthy (o : Option String) : Bool :=
  match o with
  | some s => s ≠ ""
  | none => false

/-- The value of an optional string in a strict comparison or method call;
an absent field never equals a stored status, so the empty string is an
adequate stand-in. -/
def optStr (o : Option String) : String :=
  match o with
  | some s => s
  | none => ""

/-- Template interpolation of an optional field: `undefined` is rendered
literally. -/
def jsTemplate (o : Option String) : String :=
  match o with
  | some s => s
  | none => "undefined"

/-- `MessageQueue.handleTicketCreated`: create an `open` record with one
history entry unless the ticket already has one. -/
def handleTicketCreated (store : Option TicketStatus) (d : TicketEventData)
    (now : Int) : Option TicketStatus :=
  match store with
  | some r => some r
  | none =>
      some
        { ticketId := d.id
          currentStatus := "open"
          history := [{ status := "open", timestamp := now,
                        updatedBy := jsOr d.createdBy "system",
                        reason := "Ticket created" }]
          lastUpdated := now
          isActive := true }

/-- `MessageQueue.handleTicketUpdated`: create a record with an empty
history when the ticket is unknown; otherwise run the duplicate check and
either append a no-change audit entry, perform a validated status change,
or do nothing. Errors thrown by `updateStatus` or by schema validation on
the creation save propagate. -/
def handleTicketUpdated (store : Option TicketStatus) (d : TicketEventData)
    (now : Int) : Except UpdateError (Option TicketStatus) :=
  match store with
  | none =>
      let c := jsOr d.currentStatus "open"
      if c ∈ validStoredStatuses then
        .ok (some
          { ticketId := d.id, currentStatus := c, history := [],
            lastUpdated := now, isActive := true })
      else
        .error (.schemaValidation c)
  | some status =>
      let r := optStr d.reason
      if eventIsDuplicate status (jsOr d.currentStatus status.currentStatus) r now then
        .ok (some status)
      else if jsTruthy d.previousStatus ∧ jsTruthy d.currentStatus ∧
          optStr d.previousStatus ≠ optStr d.currentStatus then
        if status.currentStatus = optStr d.currentStatus then
          if r ≠ "" ∧
              jsIncludes r ("Status changed from " ++ jsTemplate d.previousStatus ++
                " to " ++ jsTemplate d.currentStatus) = false then
            .ok (some (addHistoryEntry status (jsOr d.updatedBy "system")
              ("Status unchanged: " ++ r) now))
          else
            .ok (some status)
        else
          match updateStatus status (optStr d.currentStatus) (jsOr d.updatedBy "system")
              (if r = "" then
                 "Status changed from " ++ jsTemplate d.previousStatus ++
                   " to " ++ jsTemplate d.currentStatus
               else r) now with
          | .ok r2 => .ok (some r2)
          | .error e => .error e
      else
        if r ≠ "" ∧
            r ≠ "Status changed from " ++ jsOr d.previousStatus status.currentStatus ++
              " to " ++ jsOr d.currentStatus status.currentStatus then
          .ok (some (addHistoryEntry status (jsOr d.updatedBy "system")
            ("General update: " ++ r) now))
        else
          .ok (some status)

/-- The duplicate check of `MessageQueue.handleTicketStatusChanged`. Its
source drops the parentheses around the containment disjunction, so the
final `data.reason.includes(lastEntry.reason)` clause is not guarded by the
nonemptiness conjuncts. -/
def eventIsDuplicateSC (r : TicketStatus) (candStatus reason : String)
    (now : Int) : Bool :=
  match r.history.getLast? with
  | none => false
  | some lastEntry =>
      lastEntry.status = candStatus &&
      (now - lastEntry.timestamp).natAbs < 5000 &&
      (lastEntry.reason = reason ||
        (lastEntry.reason ≠ "" && reason ≠ "" && jsIncludes lastEntry.reason reason) ||
        jsIncludes reason lastEntry.reason)

/-- `MessageQueue.handleTicketStatusChanged`: create a record with an empty
history when the ticket is unknown; otherwise duplicate check, then either
a no-change audit append (when a reason is present) or a validated status
change. -/
def handleTicketStatusChanged (store : Option TicketStatus)
    (d : TicketEventData) (now : Int) : Except UpdateError (Option TicketStatus) :=
  match store with
  | none =>
      let c := optStr d.currentStatus
      if c ∈ validStoredStatuses then
        .ok (some
          { ticketId := d.id, currentStatus := c, history := [],
            lastUpdated := now, isActive := true })
      else
        .error (.schemaValidation c)
  | some status =>
      let r := optStr d.reason
      if eventIsDuplicateSC status (optStr d.currentStatus) r now then
        .ok (some status)
      else if status.currentStatus = optStr d.currentStatus then
        if r ≠ "" then
          .ok (some (addHistoryEntry status (jsOr d.updatedBy "system")
            ("Status unchanged: " ++ r) now))
        else
          .ok (some status)
      else
        match updateStatus status (optStr d.currentStatus) (jsOr d.updatedBy "system")
            (if r = "" then
               "Status changed from " ++ jsTemplate d.previousStatus ++
                 " to " ++ jsTemplate d.currentStatus
             else r) now with
        | .ok r2 => .ok (some r2)
        | .error e => .error e

/-- `MessageQueue.handleTicketDeleted`: mark the record inactive and append
a `deleted` audit entry; `currentStatus` and `lastUpdated` are left as they
were, and an unknown ticket is ignored. -/
def handleTicketDeleted (store : Option TicketStatus) (now : Int) :
    Option TicketStatus :=
  match store with
  | none => none
  | some status =>
      some { status with
        isActive := false
        history := status.history ++
          [{ status := "deleted", timestamp := now, updatedBy := "system",
             reason := "Ticket deleted" }] }

/-- Spec-side rendering of the history query (§6 of the spec): the record's
history filtered with inclusive date bounds, as a single pass. The limit
semantics the spec describes — the most recent `N` entries of this filtered
sequence, order preserved — is `l.drop (l.length - N)`. -/
def filteredHistorySpec (r : TicketStatus) (sd ed : Option Int) : List HistoryEntry :=
  r.history.filter (fun e =>
    (match sd with | some s => decide (s ≤ e.timestamp) | none => true) &&
    (match ed with | some d0 => decide (e.timestamp ≤ d0) | none => true))

/-- A nonempty string can only be an infix of another nonempty string. -/
lemma substring_target_ne_empty {a b : String} (ha : a ≠ "")
    (h : a.toList <:+: b.toList) : b ≠ "" := by
  intro hb
  subst hb
  have h0 : a.toList = [] := by simpa using h
  apply ha
  cases a with
  | mk data =>
    simp [String.toList] at h0
    simp [h0]

/-- C1: `isValidTransition` returns false whenever `isActive` is false (for
every candidate, `deleted` included); when `isActive` is true it returns
true exactly for the candidate `deleted` and for the table pairs
open→in-progress, open→closed, in-progress→resolved, in-progress→closed,
resolved→closed, resolved→in-progress, and false for every other pair
(in particular `closed` has no outgoing transitions). -/
theorem isValidTransition_matches_table (r : TicketStatus) (s : String) :
    isValidTransition r s = true ↔
      (r.isActive = true ∧
        (s = "deleted" ∨
          (r.currentStatus, s) ∈ [("open", "in-progress"), ("open", "closed"),
            ("in-progress", "resolved"), ("in-progress", "closed"),
            ("resolved", "closed"), ("resolved", "in-progress")])) := by
  cases hA : r.isActive
  · simp [isValidTransition, hA]
  · simp [isValidTransition, hA]
    split_ifs <;> simp_all

/-- C2: against a record with a most recent history entry, the API
duplicate filter classifies a candidate as a duplicate iff the elapsed time
to `now` is under 5 seconds, the statuses agree, the actors agree, and the
reasons are equal or one is a nonempty substring of the other; the
event-sourced filter (`handleTicketUpdated`) is the same except that it
omits the actor clause. -/
theorem duplicate_filter_characterization (r : TicketStatus)
    (status updatedBy reason : String) (now : Int) (lastEntry : HistoryEntry)
    (hlast : r.history.getLast? = some lastEntry)
    (hts : lastEntry.timestamp ≤ now) :
    (apiIsDuplicate r status updatedBy reason now = true ↔
      (now - lastEntry.timestamp < 5000 ∧ lastEntry.status = status ∧
        lastEntry.updatedBy = updatedBy ∧
        (lastEntry.reason = reason ∨
          (reason ≠ "" ∧ reason.toList <:+: lastEntry.reason.toList) ∨
          (lastEntry.reason ≠ "" ∧ lastEntry.reason.toList <:+: reason.toList)))) ∧
    (eventIsDuplicate r status reason now = true ↔
      (now - lastEntry.timestamp < 5000 ∧ lastEntry.status = status ∧
        (lastEntry.reason = reason ∨
          (reason ≠ "" ∧ reason.toList <:+: lastEntry.reason.toList) ∨
          (lastEntry.reason ≠ "" ∧ lastEntry.reason.toList <:+: reason.toList)))) := by
  have htime : ((now - lastEntry.timestamp).natAbs < 5000) ↔
      now - lastEntry.timestamp < 5000 := by omega
  have hne1 : ¬(reason = "") → reason.toList <:+: lastEntry.reason.toList →
      ¬(lastEntry.reason = "") := fun ha h => substring_target_ne_empty ha h
  have hne2 : ¬(lastEntry.reason = "") → lastEntry.reason.toList <:+: reason.toList →
      ¬(reason = "") := fun ha h => substring_target_ne_empty ha h
  constructor
  · simp only [apiIsDuplicate, hlast, jsIncludes, Bool.and_eq_true, Bool.or_eq_true,
      decide_eq_true_eq, ne_eq]
    tauto
  · simp only [eventIsDuplicate, hlast, jsIncludes, Bool.and_eq_true, Bool.or_eq_true,
      decide_eq_true_eq, ne_eq]
    tauto

/-- Witness for C2 at a concrete record: an identical re-submission 2
seconds after the last entry is classified as a duplicate. -/
theorem duplicate_filter_characterization_witness :
    apiIsDuplicate
      { ticketId := "T1", currentStatus := "resolved",
        history := [{ status := "resolved", timestamp := 0, updatedBy := "bob",
                      reason := "fixed" }],
        lastUpdated := 0, isActive := true } "resolved" "bob" "fixed" 2000 = true :=
  ((duplicate_filter_characterization
      { ticketId := "T1", currentStatus := "resolved",
        history := [{ status := "resolved", timestamp := 0, updatedBy := "bob",
                      reason := "fixed" }],
        lastUpdated := 0, isActive := true } "resolved" "bob" "fixed" 2000
      { status := "resolved", timestamp := 0, updatedBy := "bob", reason := "fixed" }
      (by decide) (by decide)).1).mpr (by refine ⟨by decide, rfl, rfl, Or.inl rfl⟩)

/-- C3 (the code's behavior at the spec's Scenario D): two identical API
updates 2 seconds apart. The first appends one history entry and publishes
one notification; the second is classified a duplicate and mutates nothing
(`history.length` stays 2, exactly one new entry for the pair) — but it
still publishes a second outbound notification, because the handler
computes `preventLoop` from `fromMessageQueue`/header only, never from the
duplicate flag, contradicting the comment above that line and the spec's
"at most one outbound notification". -/
theorem api_duplicate_single_entry_but_double_publish :
    apiUpdateHandler
      (some { ticketId := "T1", currentStatus := "in-progress",
              history := [{ status := "in-progress", timestamp := 0,
                            updatedBy := "alice", reason := "started" }],
              lastUpdated := 0, isActive := true })
      "T1" "resolved" "bob" "fixed" false false true 10000
      = (some { ticketId := "T1", currentStatus := "resolved",
                history := [{ status := "in-progress", timestamp := 0,
                              updatedBy := "alice", reason := "started" },
                            { status := "resolved", timestamp := 10000,
                              updatedBy := "bob", reason := "fixed" }],
                lastUpdated := 10000, isActive := true },
         ApiResponse.ok,
         [{ ticketId := "T1", status := "resolved", updatedBy := "bob",
            reason := "fixed", timestamp := 10000 }]) ∧
    apiUpdateHandler
      (some { ticketId := "T1", currentStatus := "resolved",
              history := [{ status := "in-progress", timestamp := 0,
                            updatedBy := "alice", reason := "started" },
                          { status := "resolved", timestamp := 10000,
                            updatedBy := "bob", reason := "fixed" }],
              lastUpdated := 10000, isActive := true })
      "T1" "resolved" "bob" "fixed" false false true 12000
      = (some { ticketId := "T1", currentStatus := "resolved",
                history := [{ status := "in-progress", timestamp := 0,
                              updatedBy := "alice", reason := "started" },
                            { status := "resolved", timestamp := 10000,
                              updatedBy := "bob", reason := "fixed" }],
                lastUpdated := 10000, isActive := true },
         ApiResponse.ok,
         [{ ticketId := "T1", status := "resolved", updatedBy := "bob",
            reason := "fixed", timestamp := 12000 }]) := by
  constructor
  · decide
  · decide

/-- C4 counterexample: on a record already soft-deleted (`isActive =
false`, `currentStatus = "deleted"`), a further `deleted` update is neither
rejected nor a no-op — it succeeds and appends another history entry
(and touches `lastUpdated`), so the record is not left unchanged. -/
theorem deleted_terminal_counterexample :
    updateStatus
      { ticketId := "T9", currentStatus := "deleted",
        history := [{ status := "deleted", timestamp := 0, updatedBy := "system",
                      reason := "Ticket deleted" }],
        lastUpdated := 0, isActive := false } "deleted" "bob" "cleanup" 9000
      = Except.ok
          { ticketId := "T9", currentStatus := "deleted",
            history := [{ status := "deleted", timestamp := 0, updatedBy := "system",
                          reason := "Ticket deleted" },
                        { status := "deleted", timestamp := 9000, updatedBy := "bob",
                          reason := "cleanup" }],
            lastUpdated := 9000, isActive := false } ∧
    ({ ticketId := "T9", currentStatus := "deleted",
       history := [{ status := "deleted", timestamp := 0, updatedBy := "system",
                     reason := "Ticket deleted" },
                   { status := "deleted", timestamp := 9000, updatedBy := "bob",
                     reason := "cleanup" }],
       lastUpdated := 9000, isActive := false } : TicketStatus)
      ≠ { ticketId := "T9", currentStatus := "deleted",
          history := [{ status := "deleted", timestamp := 0, updatedBy := "system",
                        reason := "Ticket deleted" }],
          lastUpdated := 0, isActive := false } := by
  constructor
  · rfl
  · decide

/-- C4 amended: once a record is inactive with `currentStatus = "deleted"`,
every non-`deleted` `updateStatus` call is rejected with an error (record
untouched, since the method is all-or-nothing), and every call that does
succeed — necessarily a repeated `deleted` — only appends an audit entry
while keeping `isActive = false` and `currentStatus = "deleted"`; the
audit-append path and the `ticket.deleted` handler likewise never
reactivate the record or move `currentStatus` away from `deleted`. -/
theorem deleted_is_terminal_amended (r : TicketStatus) (s u reason : String)
    (now : Int) (hIn : r.isActive = false) (hCur : r.currentStatus = "deleted") :
    (normalizeStatus s ≠ "deleted" →
       ∃ e, updateStatus r s u reason now = Except.error e) ∧
    (∀ r2, updateStatus r s u reason now = Except.ok r2 →
       r2.isActive = false ∧ r2.currentStatus = "deleted" ∧
       r2.history = r.history ++
         [{ status := "deleted", timestamp := now, updatedBy := u,
            reason := if reason = "" then "Ticket deleted" else reason }]) ∧
    ((addHistoryEntry r u reason now).isActive = false ∧
      (addHistoryEntry r u reason now).currentStatus = "deleted") ∧
    (∀ r2, handleTicketDeleted (some r) now = some r2 →
       r2.isActive = false ∧ r2.currentStatus = "deleted") := by
  refine ⟨?_, ?_, ?_, ?_⟩
  · intro hnd
    by_cases he : normalizeStatus s ∈ statusTypes
    · exact ⟨UpdateError.invalidTransition r.currentStatus (normalizeStatus s),
        by simp [updateStatus, hnd, he, isValidTransition, hIn]⟩
    · exact ⟨UpdateError.invalidStatusValue s, by simp [updateStatus, hnd, he]⟩
  · intro r2 h
    by_cases hnd : normalizeStatus s = "deleted"
    · simp [updateStatus, hnd] at h
      subst h
      exact ⟨rfl, rfl, rfl⟩
    · by_cases he : normalizeStatus s ∈ statusTypes
      · simp [updateStatus, hnd, he, isValidTransition, hIn] at h
      · simp [updateStatus, hnd, he] at h
  · simp [addHistoryEntry, hIn, hCur]
  · intro r2 h
    simp only [handleTicketDeleted, Option.some.injEq] at h
    subst h
    simp [hIn, hCur]

/-- Witness for C4 at a concrete soft-deleted record and the candidate
`open`. -/
theorem deleted_is_terminal_amended_witness :
    ∃ e, updateStatus
      { ticketId := "T9", currentStatus := "deleted",
        history := [{ status := "deleted", timestamp := 0, updatedBy := "system",
                      reason := "Ticket deleted" }],
        lastUpdated := 0, isActive := false } "open" "bob" "" 5 = Except.error e :=
  (deleted_is_terminal_amended
    { ticketId := "T9", currentStatus := "deleted",
      history := [{ status := "deleted", timestamp := 0, updatedBy := "system",
                    reason := "Ticket deleted" }],
      lastUpdated := 0, isActive := false } "open" "bob" "" 5 rfl rfl).1 (by decide)

/-- The invalid-transition message always contains the marker substring the
route's `catch` block matches on. -/
lemma invalid_transition_message_includes (a b : String) :
    jsIncludes (errorMessage (UpdateError.invalidTransition a b))
      "Invalid status transition" = true := by
  simp only [jsIncludes, errorMessage, decide_eq_true_eq]
  have h1 : ("Invalid status transition".toList) <+:
      ("Invalid status transition from ".toList) := by decide
  have h2 : ("Invalid status transition".toList) <+:
      ("Invalid status transition from ".toList ++
        (a.toList ++ (" to ".toList ++ b.toList))) :=
    List.IsPrefix.trans h1 (List.prefix_append _ _)
  have h3 := List.IsPrefix.isInfix h2
  simpa [String.toList, List.append_assoc] using h3

/-- C5: an update whose (normalized) status is in the enumeration but whose
transition from `currentStatus` is not allowed fails in `updateStatus` with
the distinct invalid-transition error, which the route maps to a client
error (400, not 500); on the handler the store is returned untouched and
nothing is published — an all-or-nothing rejection. -/
theorem invalid_transition_rejected (r : TicketStatus) (tid s u reason : String)
    (now : Int) (fmq hdr chOk : Bool)
    (hEnum : normalizeStatus s ∈ statusTypes)
    (hInvalid : isValidTransition r (normalizeStatus s) = false)
    (hs : s ≠ "") (hu : u ≠ "")
    (hndup : apiIsDuplicate r s u reason now = false)
    (hneq : r.currentStatus ≠ s) :
    updateStatus r s u reason now
        = Except.error (.invalidTransition r.currentStatus (normalizeStatus s)) ∧
    mapUpdateError (.invalidTransition r.currentStatus (normalizeStatus s))
        = ApiResponse.badRequest
            (errorMessage (.invalidTransition r.currentStatus (normalizeStatus s))) ∧
    apiUpdateHandler (some r) tid s u reason fmq hdr chOk now
        = (some r,
           ApiResponse.badRequest
             (errorMessage (.invalidTransition r.currentStatus (normalizeStatus s))),
           []) := by
  have hnd : normalizeStatus s ≠ "deleted" := by
    intro h
    rw [h] at hEnum
    simp [statusTypes] at hEnum
  have h1 : updateStatus r s u reason now
      = Except.error (.invalidTransition r.currentStatus (normalizeStatus s)) := by
    simp [updateStatus, hnd, hEnum, hInvalid]
  have h2 : mapUpdateError (.invalidTransition r.currentStatus (normalizeStatus s))
      = ApiResponse.badRequest
          (errorMessage (.invalidTransition r.currentStatus (normalizeStatus s))) := by
    simp [mapUpdateError, invalid_transition_message_includes]
  refine ⟨h1, h2, ?_⟩
  simp [apiUpdateHandler, hs, hu, hndup, hneq, h1, h2]

/-- Witness for C5: the spec's Scenario-C-style illegal edge open→resolved
on a concrete record yields a 400 and an unchanged store. -/
theorem invalid_transition_rejected_witness :
    apiUpdateHandler
      (some { ticketId := "T1", currentStatus := "open",
              history := [{ status := "open", timestamp := 0, updatedBy := "alice",
                            reason := "created" }],
              lastUpdated := 0, isActive := true })
      "T1" "resolved" "bob" "why" false false true 100000
      = (some { ticketId := "T1", currentStatus := "open",
                history := [{ status := "open", timestamp := 0, updatedBy := "alice",
                              reason := "created" }],
                lastUpdated := 0, isActive := true },
         ApiResponse.badRequest
           (errorMessage (UpdateError.invalidTransition "open" "resolved")),
         []) := by
  have h := invalid_transition_rejected
    { ticketId := "T1", currentStatus := "open",
      history := [{ status := "open", timestamp := 0, updatedBy := "alice",
                    reason := "created" }],
      lastUpdated := 0, isActive := true }
    "T1" "resolved" "bob" "why" 100000 false false true
    (by decide) (by decide) (by decide) (by decide) (by decide) (by decide)
  simpa [normalizeStatus] using h.2.2
/-- C6 counterexample: the record-creating branches of the `ticket.updated`
and `ticket.status.changed` handlers create the record with an empty
history (`history: []`), so "history is non-empty immediately after
creation, first entry carries the creation status" fails there. -/
theorem creation_empty_history_counterexample :
    handleTicketUpdated none { id := "T7", currentStatus := some "open" } 0
      = Except.ok (some { ticketId := "T7", currentStatus := "open", history := [],
                          lastUpdated := 0, isActive := true }) ∧
    handleTicketStatusChanged none { id := "T8", currentStatus := some "resolved" } 0
      = Except.ok (some { ticketId := "T8", currentStatus := "resolved", history := [],
                          lastUpdated := 0, isActive := true }) := by
  constructor
  · rfl
  · rfl

/-- C6 amended: records created by the API update path and by the
`ticket.created` handler start with a one-entry history whose entry carries
the creation status; the record-creating branches of `ticket.updated` and
`ticket.status.changed`, by contrast, always create the record with an
empty history. -/
theorem creation_history_amended (tid s u reason : String)
    (fmq hdr chOk : Bool) (now n1 n2 n3 : Int) (d1 d2 d3 : TicketEventData)
    (hs : s ≠ "") (hu : u ≠ "") (hval : s ∈ validStoredStatuses) :
    (apiUpdateHandler none tid s u reason fmq hdr chOk now).1
      = some { ticketId := tid, currentStatus := s,
               history := [{ status := s, timestamp := now, updatedBy := u,
                             reason := if reason = "" then "Initial status" else reason }],
               lastUpdated := now, isActive := true } ∧
    handleTicketCreated none d1 n1
      = some { ticketId := d1.id, currentStatus := "open",
               history := [{ status := "open", timestamp := n1,
                             updatedBy := jsOr d1.createdBy "system",
                             reason := "Ticket created" }],
               lastUpdated := n1, isActive := true } ∧
    (∀ r2, handleTicketUpdated none d2 n2 = Except.ok (some r2) → r2.history = []) ∧
    (∀ r2, handleTicketStatusChanged none d3 n3 = Except.ok (some r2) →
       r2.history = []) := by
  refine ⟨?_, rfl, ?_, ?_⟩
  · simp [apiUpdateHandler, hs, hu, hval]
  · intro r2 h
    by_cases hc : jsOr d2.currentStatus "open" ∈ validStoredStatuses
    · simp [handleTicketUpdated, hc] at h
      subst h
      rfl
    · simp [handleTicketUpdated, hc] at h
  · intro r2 h
    by_cases hc : optStr d3.currentStatus ∈ validStoredStatuses
    · simp [handleTicketStatusChanged, hc] at h
      subst h
      rfl
    · simp [handleTicketStatusChanged, hc] at h

/-- Witness for C6 at a concrete API creation. -/
theorem creation_history_amended_witness :
    (apiUpdateHandler none "T1" "in-progress" "alice" "" false false true 0).1
      = some { ticketId := "T1", currentStatus := "in-progress",
               history := [{ status := "in-progress", timestamp := 0,
                             updatedBy := "alice", reason := "Initial status" }],
               lastUpdated := 0, isActive := true } := by
  have h := (creation_history_amended "T1" "in-progress" "alice" "" false false true
    0 0 0 0 { id := "E1" } { id := "E2" } { id := "E3" }
    (by decide) (by decide) (by decide)).1
  simpa using h

/-- C7 (the code's behavior): `publishStatusUpdated` publishes nothing
whenever `preventLoop` is true — but the "only if `notify`" half of the
claim fails: the handler publishes unconditionally whenever `preventLoop`
is false, even for a duplicate-suppressed call that produced no change
(spec-`notify` false), as the concrete evaluation shows (store unchanged,
yet one message published). -/
theorem publish_gated_only_by_preventLoop :
    (∀ (chOk : Bool) (tid s u reason : String) (now : Int),
        publishStatusUpdated chOk tid s u reason true now = (true, [])) ∧
    apiUpdateHandler
      (some { ticketId := "T2", currentStatus := "closed",
              history := [{ status := "closed", timestamp := 1000,
                            updatedBy := "carol", reason := "done" }],
              lastUpdated := 1000, isActive := true })
      "T2" "closed" "carol" "done" false false true 3000
      = (some { ticketId := "T2", currentStatus := "closed",
                history := [{ status := "closed", timestamp := 1000,
                              updatedBy := "carol", reason := "done" }],
                lastUpdated := 1000, isActive := true },
         ApiResponse.ok,
         [{ ticketId := "T2", status := "closed", updatedBy := "carol",
            reason := "done", timestamp := 3000 }]) := by
  constructor
  · intro chOk tid s u reason now
    rfl
  · rfl

/-- C8 counterexample: a supplied `limit` of `0` is falsy in the source's
guard, so the whole (nonempty) filtered history is returned instead of the
most recent 0 entries (the empty sequence the claim prescribes). -/
theorem history_limit_zero_counterexample :
    getStatusHistory
      { ticketId := "T4", currentStatus := "open",
        history := [{ status := "open", timestamp := 100, updatedBy := "alice",
                      reason := "created" }],
        lastUpdated := 100, isActive := true }
      { startDate := none, endDate := none, limit := some 0 }
      = [{ status := "open", timestamp := 100, updatedBy := "alice",
           reason := "created" }] ∧
    List.drop
      (([{ status := "open", timestamp := 100, updatedBy := "alice",
           reason := "created" }] : List HistoryEntry).length - (0 : Int).toNat)
      ([{ status := "open", timestamp := 100, updatedBy := "alice",
          reason := "created" }] : List HistoryEntry) = [] ∧
    ([{ status := "open", timestamp := 100, updatedBy := "alice",
        reason := "created" }] : List HistoryEntry) ≠ [] := by
  refine ⟨rfl, rfl, by decide⟩

/-- C8 amended: for every positive supplied limit `N` the history query
returns the most recent `N` entries, in order, of the history filtered with
inclusive date bounds; with no limit it returns the whole filtered
sequence. -/
theorem history_query_amended (r : TicketStatus) (sd ed : Option Int) (N : Int)
    (hN : 0 < N) :
    getStatusHistory r { startDate := sd, endDate := ed, limit := none }
      = filteredHistorySpec r sd ed ∧
    getStatusHistory r { startDate := sd, endDate := ed, limit := some N }
      = (filteredHistorySpec r sd ed).drop
          ((filteredHistorySpec r sd ed).length - N.toNat) := by
  have hne : ¬(N = 0) := by omega
  have hneg : ¬(0 ≤ -N) := by omega
  have habs : (-N).natAbs = N.toNat := by omega
  have hbase : getStatusHistory r { startDate := sd, endDate := ed, limit := none }
      = filteredHistorySpec r sd ed := by
    cases sd with
    | none =>
      cases ed <;> simp [getStatusHistory, filteredHistorySpec, List.filter_filter]
    | some s0 =>
      cases ed with
      | none => simp [getStatusHistory, filteredHistorySpec, List.filter_filter]
      | some e0 =>
        simp only [getStatusHistory, filteredHistorySpec, List.filter_filter]
        exact List.filter_congr (fun a _ => Bool.and_comm _ _)
  refine ⟨hbase, ?_⟩
  have hstep : getStatusHistory r { startDate := sd, endDate := ed, limit := some N }
      = jsSliceFrom (getStatusHistory r { startDate := sd, endDate := ed, limit := none })
          (-N) := by
    simp [getStatusHistory, hne]
  rw [hstep, hbase, jsSliceFrom]
  simp [hneg, habs]

/-- Witness for C8 at a concrete two-entry record with `limit = 1`. -/
theorem history_query_amended_witness :
    getStatusHistory
      { ticketId := "T4", currentStatus := "open",
        history := [{ status := "open", timestamp := 100, updatedBy := "alice",
                      reason := "created" },
                    { status := "in-progress", timestamp := 200, updatedBy := "bob",
                      reason := "picked up" }],
        lastUpdated := 200, isActive := true }
      { startDate := none, endDate := none, limit := some 1 }
      = (filteredHistorySpec
          { ticketId := "T4", currentStatus := "open",
            history := [{ status := "open", timestamp := 100, updatedBy := "alice",
                          reason := "created" },
                        { status := "in-progress", timestamp := 200, updatedBy := "bob",
                          reason := "picked up" }],
            lastUpdated := 200, isActive := true } none none).drop
          ((filteredHistorySpec
            { ticketId := "T4", currentStatus := "open",
              history := [{ status := "open", timestamp := 100, updatedBy := "alice",
                            reason := "created" },
                          { status := "in-progress", timestamp := 200, updatedBy := "bob",
                            reason := "picked up" }],
              lastUpdated := 200, isActive := true } none none).length - (1 : Int).toNat) :=
  (history_query_amended
    { ticketId := "T4", currentStatus := "open",
      history := [{ status := "open", timestamp := 100, updatedBy := "alice",
                    reason := "created" },
                  { status := "in-progress", timestamp := 200, updatedBy := "bob",
                    reason := "picked up" }],
      lastUpdated := 200, isActive := true } none none 1 (by decide)).2

/-- C9 counterexample: with a failing notifier channel, a successful store
mutation (open→in-progress) still answers 200 (`ApiResponse.ok`), not a
server error — the publish failure is invisible to the caller. -/
theorem notifier_failure_success_response_counterexample :
    apiUpdateHandler
      (some { ticketId := "T3", currentStatus := "open",
              history := [{ status := "open", timestamp := 0, updatedBy := "alice",
                            reason := "created" }],
              lastUpdated := 0, isActive := true })
      "T3" "in-progress" "dave" "start" false false false 7000
      = (some { ticketId := "T3", currentStatus := "in-progress",
                history := [{ status := "open", timestamp := 0, updatedBy := "alice",
                              reason := "created" },
                            { status := "in-progress", timestamp := 7000,
                              updatedBy := "dave", reason := "start" }],
                lastUpdated := 7000, isActive := true },
         ApiResponse.ok, []) := by
  rfl

/-- C9 amended: a notifier failure is swallowed — `publishStatusUpdated`
catches it and returns `false` with nothing published, and the update route
ignores that return value, responding with success even though the store
mutation went through and no notification went out. -/
theorem notifier_failure_swallowed (tid s u reason : String) (now : Int)
    (r : TicketStatus) (hs : s ≠ "") (hu : u ≠ "")
    (hndup : apiIsDuplicate r s u reason now = false)
    (hsame : r.currentStatus = s) :
    publishStatusUpdated false tid s u reason false now = (false, []) ∧
    apiUpdateHandler (some r) tid s u reason false false false now
      = (some (addHistoryEntry r u
           (if reason = "" then "Status update to " ++ s ++ " (no change)" else reason)
           now),
         ApiResponse.ok, []) := by
  constructor
  · rfl
  · simp [apiUpdateHandler, hs, hu, hndup, hsame, publishStatusUpdated]

/-- Witness for C9 at a concrete same-status audit update with a failing
channel. -/
theorem notifier_failure_swallowed_witness :
    apiUpdateHandler
      (some { ticketId := "T5", currentStatus := "open",
              history := [{ status := "open", timestamp := 0, updatedBy := "alice",
                            reason := "created" }],
              lastUpdated := 0, isActive := true })
      "T5" "open" "erin" "note" false false false 9000
      = (some (addHistoryEntry
           { ticketId := "T5", currentStatus := "open",
             history := [{ status := "open", timestamp := 0, updatedBy := "alice",
                           reason := "created" }],
             lastUpdated := 0, isActive := true } "erin" "note" 9000),
         ApiResponse.ok, []) := by
  have h := (notifier_failure_swallowed "T5" "open" "erin" "note" 9000
    { ticketId := "T5", currentStatus := "open",
      history := [{ status := "open", timestamp := 0, updatedBy := "alice",
                    reason := "created" }],
      lastUpdated := 0, isActive := true }
    (by decide) (by decide) (by decide) rfl).2
  simpa using h

/-- C10: `updateStatus` behaves identically on the spellings `in_progress`
and `in-progress` — the results are equal outright — and every successful
such update stores the canonical `in-progress` both in `currentStatus` and
in the appended (last) history entry. -/
theorem in_progress_alias (r : TicketStatus) (u reason : String) (now : Int) :
    updateStatus r "in_progress" u reason now
      = updateStatus r "in-progress" u reason now ∧
    (∀ r2, updateStatus r "in_progress" u reason now = Except.ok r2 →
       r2.currentStatus = "in-progress" ∧
       r2.history.getLast? = some
         { status := "in-progress", timestamp := now, updatedBy := u,
           reason := if reason = "" then
               "Status changed from " ++ r.currentStatus ++ " to " ++ "in-progress"
             else reason }) := by
  constructor
  · rfl
  · intro r2 h
    by_cases hv : isValidTransition r "in-progress" = false
    · simp [updateStatus, normalizeStatus, hv, statusTypes] at h
    · simp [updateStatus, normalizeStatus, hv, statusTypes] at h
      subst h
      exact ⟨rfl, List.getLast?_concat _⟩

/-- Witness for C10: a concrete `in_progress` update on an `open` record
lands on canonical `in-progress`. -/
theorem in_progress_alias_witness :
    ({ ticketId := "W", currentStatus := "in-progress",
       history := [{ status := "open", timestamp := 0, updatedBy := "alice",
                     reason := "created" },
                   { status := "in-progress", timestamp := 100, updatedBy := "alice",
                     reason := "Status changed from open to in-progress" }],
       lastUpdated := 100, isActive := true } : TicketStatus).currentStatus
      = "in-progress" ∧
    ({ ticketId := "W", currentStatus := "in-progress",
       history := [{ status := "open", timestamp := 0, updatedBy := "alice",
                     reason := "created" },
                   { status := "in-progress", timestamp := 100, updatedBy := "alice",
                     reason := "Status changed from open to in-progress" }],
       lastUpdated := 100, isActive := true } : TicketStatus).history.getLast?
      = some { status := "in-progress", timestamp := 100, updatedBy := "alice",
               reason := "Status changed from open to in-progress" } := by
  have h := (in_progress_alias
    { ticketId := "W", currentStatus := "open",
      history := [{ status := "open", timestamp := 0, updatedBy := "alice",
                    reason := "created" }],
      lastUpdated := 0, isActive := true } "alice" "" 100).2
    { ticketId := "W", currentStatus := "in-progress",
      history := [{ status := "open", timestamp := 0, updatedBy := "alice",
                    reason := "created" },
                  { status := "in-progress", timestamp := 100, updatedBy := "alice",
                    reason := "Status changed from open to in-progress" }],
      lastUpdated := 100, isActive := true } (by rfl)
  exact ⟨h.1, Eq.trans h.2 rfl⟩
